import Mathlib

/-!
Verification development for `main.py` of the m13v/agi_house_011825 repository.

The program is a perception-action loop: it captures a region of the screen,
sends the image to a multimodal model together with recent action-log history,
executes the function call the model returns (`type_letters` / `type_text`),
appends the outcome to an append-only JSON action log, and repeats.

Embedding conventions:
* External collaborators (the model endpoint, screen capture, keyboard
  simulation, the OS clock, disk serialization) are modelled as parameters or
  oracles, exactly as the program's own module boundaries delimit them.
  The model endpoint is an oracle indexed by the global attempt number: the
  outcome of one `chat.send_message` round (including the preceding image
  upload) is either an exception, rendered by its Python `str`, or a list of
  response parts.
* Observable side effects (simulated keystrokes, the option-key tap,
  screenshot captures, whole-second sleeps, warnings about unknown actions,
  requests sent to the model) are recorded in an event trace.  Sub-second
  delays (the 0.1s inter-keystroke pauses) carry no claim content and are
  not traced.
* The action log file `log.json` is a JSON array of
  `{timestamp, action, result}` objects.  The JSON text layer is modelled
  structurally: the file state is either missing, unreadable/corrupt text,
  a parsable non-array value, or a well-formed array of entries, and
  `json.dumps`/`json.loads` are mutually inverse on what `save_log` writes
  (the Python `json` library's contract; the spec explicitly treats
  file/log persistence mechanics as an external collaborator).
* Timestamps (`datetime.now().isoformat()`) are modelled by a monotone
  counter threaded through the state and rendered with `toString`.
* Python's `str.isalpha`/`str.lower` consult Unicode tables owned by the
  runtime; the character classifier is therefore a parameter `alpha` of the
  embedding, and lowercasing is `String.toLower`.
-/

namespace AgiHouse

/-- Character-list test: does the first list start the second?  Used to embed
Python's substring operator. -/
def pyStartsWith : List Char → List Char → Bool
  | [], _ => true
  | _ :: _, [] => false
  | a :: as, b :: bs => a == b && pyStartsWith as bs

/-- Python's `needle in hay` on strings, as a scan over character lists. -/
def pyHasSub (needle : List Char) : List Char → Bool
  | [] => pyStartsWith needle []
  | c :: rest => pyStartsWith needle (c :: rest) || pyHasSub needle rest

/-- The rate-limit classification `"429" in str(e)` from `twitter_helper`
(`main.py` line 309). -/
def has429 (e : String) : Bool := pyHasSub "429".toList e.toList

/-- One record of `log.json`: `{"timestamp": ..., "action": ..., "result": ...}`
as appended by `save_log` (`main.py` lines 130-134). -/
structure LogEntry where
  timestamp : String
  action : String
  result : String
deriving DecidableEq, Repr

/-- State of the `log.json` file.  `missing` and `corrupt` make
`read_text`/`json.loads` raise; `notArray` is a parsable JSON value that is
not an array, on which `logs.append` / `logs[-n:]` raise. -/
inductive LogFileState
  | missing
  | corrupt
  | notArray
  | valid (entries : List LogEntry)
deriving DecidableEq, Repr

/-- `json.loads(LOG_FILE.read_text())`: raises on a missing file or corrupt
text, otherwise yields the parsed value (`some entries` when it is the array
of well-formed records, `none` for any other JSON value). -/
def readLogs : LogFileState → Except String (Option (List LogEntry))
  | .missing => .error "FileNotFoundError"
  | .corrupt => .error "JSONDecodeError"
  | .notArray => .ok none
  | .valid l => .ok (some l)

/-- The per-entry rendering of `get_recent_logs` (`main.py` line 147):
`f"[{log['timestamp']}] {log['action']}: {log['result']}"`. -/
def fmtLog (e : LogEntry) : String :=
  "[" ++ e.timestamp ++ "] " ++ e.action ++ ": " ++ e.result

/-- Python list slice `l[i:]`: a negative start counts from the end and is
clamped at 0, a non-negative start is clamped at the length. -/
def pySliceSuffix (i : Int) (l : List α) : List α :=
  if i < 0 then l.drop ((l.length + i).toNat) else l.drop i.toNat

/-- The last `min(n, length)` elements of a list, empty when `n ≤ 0`.  This is
the reading of "the last min(n, total) entries" used to state the claims about
`get_recent_logs`. -/
def lastN (n : Int) (l : List α) : List α :=
  if n ≤ 0 then [] else l.drop (l.length - n.toNat)

/-- `get_recent_logs(n)` (`main.py` lines 140-150): reads and parses
`log.json`, slices `logs[-n:]`, formats each record; any exception (missing
file, corrupt text, slicing or key access on a non-array) yields `""`. -/
def get_recent_logs (n : Int) (st : LogFileState) : String :=
  match readLogs st with
  | .error _ => ""
  | .ok none => ""
  | .ok (some logs) => String.intercalate "\n" ((pySliceSuffix (-n) logs).map fmtLog)

/-- Whether the `LOG_FILE.write_text` call succeeds; on failure it raises and
leaves the file in some state `left` (the write opens with truncation, so the
embedding does not assume the old content survives). -/
inductive WriteOutcome
  | ok
  | fail (left : LogFileState)
deriving DecidableEq, Repr

/-- The body of `save_log` (`main.py` lines 129-136) without its `try/except`:
read and parse the file, append the new record, write the file back.  Errors
carry the file state at the moment they are raised. -/
def save_log_body (ts action result : String) (wr : WriteOutcome) (st : LogFileState) :
    Except (String × LogFileState) LogFileState :=
  match readLogs st with
  | .error e => .error (e, st)
  | .ok none => .error ("AttributeError: append on non-list", st)
  | .ok (some logs) =>
    match wr with
    | .ok => .ok (.valid (logs ++ [⟨ts, action, result⟩]))
    | .fail left => .error ("OSError: write_text failed", left)

/-- `save_log(action, result)` (`main.py` lines 126-138): the body wrapped in
`try/except Exception`.  Returns the resulting file state and whether a
failure was reported via `logging.error`. -/
def save_log (ts action result : String) (wr : WriteOutcome) (st : LogFileState) :
    LogFileState × Bool :=
  match save_log_body ts action result wr st with
  | .ok st' => (st', false)
  | .error (_, st') => (st', true)

/-- `save_log` viewed as a Python call that could in principle raise to its
caller: the `except` clause converts every body exception into a logged
message and a normal return. -/
def save_log_call (ts action result : String) (wr : WriteOutcome) (st : LogFileState) :
    Except String (LogFileState × Bool) :=
  match save_log_body ts action result wr st with
  | .ok st' => .ok (st', false)
  | .error (_, st') => .ok (st', true)

/-- Observable events of a run: simulated keystrokes, the option-key tap of
`press_option`, screenshot captures (numbered by a counter), requests sent to
the model (carrying the image id), whole-second sleeps, and the
unknown-action warning of the dispatcher. -/
inductive Ev
  | keystroke (c : Char)
  | optionTap
  | capture (id : Nat)
  | send (img : Nat)
  | sleep (secs : Nat)
  | warn (name : String)
deriving DecidableEq, Repr

/-- Program state threaded through a run: the `log.json` state, the clock
used for timestamps, the capture counter, and the event trace. -/
structure St where
  log : LogFileState
  time : Nat
  capCount : Nat
  trace : List Ev
deriving DecidableEq, Repr

/-- `capture_screenshot()` as an effect: records a capture event and returns
the fresh image id (`main.py` lines 152-172; the region geometry is modelled
separately by `captureRegion`). -/
def captureSt (st : St) : Nat × St :=
  (st.capCount,
   { st with capCount := st.capCount + 1, trace := st.trace ++ [Ev.capture st.capCount] })

/-- A `save_log` call inside a run: stamps the entry with the current clock
and advances the clock.  Disk writes succeed during the runs modelled here;
write failures are exercised by the dedicated `save_log` theorems. -/
def saveLogSt (action result : String) (st : St) : St :=
  { st with
      log := (save_log (toString st.time) action result WriteOutcome.ok st.log).1,
      time := st.time + 1 }

/-- A Python value as it may reach `type_letters`: a string, or something
else (`isinstance(letters, str)` is the first check). -/
inductive PyVal
  | str (s : String)
  | intVal (n : Int)
  | noneVal
deriving DecidableEq, Repr

/-- Python `s.isalpha()`: non-empty and every character alphabetic according
to the runtime's classifier `alpha`. -/
def pyIsAlphaStr (alpha : Char → Bool) (s : String) : Bool :=
  !s.isEmpty && s.toList.all alpha

/-- Python `s.lower()` as the character sequence that gets typed. -/
def pyLower (s : String) : List Char := s.toList.map Char.toLower

/-- `type_letters(letters)` (`main.py` lines 196-220): validate
(string, length 2-3, alphabetic — in that order), then type each lowercased
character, run `press_option` (a 3-second settle wait then the option tap),
and re-capture.  A `ValueError` carries the state at raise time: validation
precedes every effect. -/
def type_letters (alpha : Char → Bool) (v : PyVal) (st : St) :
    Except (String × St) (Nat × St) :=
  match v with
  | .str letters =>
    if 2 ≤ letters.length ∧ letters.length ≤ 3 then
      if pyIsAlphaStr alpha letters then
        .ok (captureSt
          { st with
              trace := st.trace ++ (pyLower letters).map Ev.keystroke
                        ++ [Ev.sleep 3, Ev.optionTap] })
      else .error ("Input must contain only letters", st)
    else .error ("Must provide 2-3 letters", st)
  | _ => .error ("Input must be a string", st)

/-- `type_text(text)` (`main.py` lines 222-230): type every character, no
validation, no confirm gesture. -/
def type_text (t : String) : List Ev := t.toList.map Ev.keystroke

/-- A function call in a model response part: `fn.name` and `fn.args`. -/
structure FnCall where
  name : String
  args : List (String × String)
deriving DecidableEq, Repr

/-- One part of a model response: optional free text and an optional
function call. -/
structure Part where
  text : Option String
  fn : Option FnCall
deriving DecidableEq, Repr

/-- `fn.args.get(key)`: association lookup, `none` when the key is absent. -/
def lookupArg : List (String × String) → String → Option String
  | [], _ => none
  | (k, v) :: rest, key => if k = key then some v else lookupArg rest key

/-- The dispatcher of `twitter_helper` (`main.py` lines 284-299): execute a
`type_letters`/`type_text` call when its required argument is present and
truthy, warn on an unknown name, and record each executed action in the
action log. -/
def dispatch (alpha : Char → Bool) (fn : FnCall) (st : St) : Except (String × St) St :=
  if fn.name = "type_letters" then
    match lookupArg fn.args "letters" with
    | some letters =>
      if letters = "" then .ok st
      else
        match type_letters alpha (.str letters) st with
        | .ok (_, st') => .ok (saveLogSt "type_letters" letters st')
        | .error es => .error es
    | none => .ok st
  else if fn.name = "type_text" then
    match lookupArg fn.args "text" with
    | some t =>
      if t = "" then .ok st
      else .ok (saveLogSt "type_text" t { st with trace := st.trace ++ type_text t })
    | none => .ok st
  else .ok { st with trace := st.trace ++ [Ev.warn fn.name] }

/-- The `for part in response.parts` loop of `twitter_helper`: free text is
only logged, each function call is dispatched; an exception aborts the loop. -/
def processParts (alpha : Char → Bool) : List Part → St → Except (String × St) St
  | [], st => .ok st
  | p :: rest, st =>
    match p.fn with
    | none => processParts alpha rest st
    | some fn =>
      match dispatch alpha fn st with
      | .ok st' => processParts alpha rest st'
      | .error es => .error es

/-- One try-block attempt of `twitter_helper`: the upload/send round is the
oracle's outcome for attempt `k`; on a response, the parts are dispatched. -/
def attempt (oracle : Nat → Except String (List Part)) (alpha : Char → Bool)
    (k : Nat) (st : St) : Except (String × St) St :=
  match oracle k with
  | .error e => .error (e, st)
  | .ok parts => processParts alpha parts st

/-- `twitter_helper(image, max_retries, retry_delay)` (`main.py` lines
249-315).  An attempt is tried (recording the request with its image id); on
success it returns `True`.  On an exception, the error is appended to the
action log as an `"error"` entry; if `str(e)` carries `"429"` and retry
budget remains, a `"warning"` entry is appended, the backoff sleep runs, and
the call recurses with the same image and a decremented budget; otherwise it
returns `False`.  The extra `Nat` threads the global attempt index for the
oracle. -/
def twitter_helper (oracle : Nat → Except String (List Part)) (alpha : Char → Bool)
    (img delay : Nat) : Nat → Nat → St → Bool × Nat × St
  | budget, k, st =>
    match attempt oracle alpha k { st with trace := st.trace ++ [Ev.send img] } with
    | .ok st1 => (true, k + 1, st1)
    | .error (e, st1) =>
      let st2 := saveLogSt "error" ("error analyzing screenshot: " ++ e) st1
      if has429 e then
        match budget with
        | b + 1 =>
          let st3 := saveLogSt "warning"
            ("hit rate limit, waiting " ++ toString delay ++ " seconds before retry") st2
          twitter_helper oracle alpha img delay b (k + 1)
            { st3 with trace := st3.trace ++ [Ev.sleep delay] }
        | 0 => (false, k + 1, st2)
      else (false, k + 1, st2)

/-- A monitor as reported by `mss` (`sct.monitors[1]`). -/
structure Monitor where
  top : Int
  left : Int
  width : Nat
  height : Nat
deriving DecidableEq, Repr

/-- A capture region. -/
structure Region where
  top : Int
  left : Int
  width : Nat
  height : Nat
deriving DecidableEq, Repr

/-- The region computed by `capture_screenshot` (`main.py` lines 158-166):
`width = monitor["width"] // 3`, `height = int(monitor["height"] * 0.625)`,
anchored at the monitor's top-left.  Since `0.625 = 5/8` is a dyadic
rational, `float(h) * 0.625` is exact for every height below `2^53 / 5`
(far beyond any display), so the truncation equals `5 * h / 8` in natural
division. -/
def captureRegion (m : Monitor) : Region :=
  { top := m.top, left := m.left, width := m.width / 3, height := 5 * m.height / 8 }

/-- `capture_screenshot()` returns the grabbed image together with the region
it was grabbed from; the grab itself is the external collaborator `grab`. -/
def capture_screenshot (grab : Region → Nat) (m : Monitor) : Nat × Region :=
  (grab (captureRegion m), captureRegion m)

/-- State of the engagement loop of `main` (`main.py` lines 353-367): the run
state, the current screenshot's id, and the global attempt index. -/
structure LoopState where
  st : St
  shot : Nat
  k : Nat
deriving DecidableEq, Repr

/-- One iteration of the steady loop: query `twitter_helper` with the current
screenshot (default budget 3, default backoff 60); on success capture a fresh
screenshot for the next iteration; on failure sleep 5 seconds and keep the
same screenshot. -/
def loop_iter (oracle : Nat → Except String (List Part)) (alpha : Char → Bool)
    (ls : LoopState) : LoopState :=
  match twitter_helper oracle alpha ls.shot 60 3 ls.k ls.st with
  | (true, k', st') =>
    let c := captureSt st'
    { st := c.2, shot := c.1, k := k' }
  | (false, k', st') =>
    { st := { st' with trace := st'.trace ++ [Ev.sleep 5] }, shot := ls.shot, k := k' }

/-- Iterate the steady loop a given number of times. -/
def loop_run (oracle : Nat → Except String (List Part)) (alpha : Char → Bool) :
    Nat → LoopState → LoopState
  | 0, ls => ls
  | n + 1, ls => loop_run oracle alpha n (loop_iter oracle alpha ls)

/-- Loop state right after bootstrap: the capture of `main.py` line 347 has
id 0 and is the current screenshot. -/
def initLS : LoopState :=
  { st := { log := .valid [], time := 0, capCount := 1, trace := [Ev.capture 0] },
    shot := 0, k := 0 }

/-- Id of the most recent capture event in a trace. -/
def lastCap (tr : List Ev) : Option Nat :=
  tr.foldl (fun acc e => match e with | .capture i => some i | _ => acc) none

/-- Scan a trace checking that every request sent to the model carries the id
of the most recent capture; the accumulator is the last capture seen. -/
def sendsFreshAux : Option Nat → List Ev → Bool
  | _, [] => true
  | lastSeen, e :: rest =>
    match e with
    | .capture i => sendsFreshAux (some i) rest
    | .send img => lastSeen == some img && sendsFreshAux lastSeen rest
    | _ => sendsFreshAux lastSeen rest

/-- The freshness reading of the spec invariant: every observation handed to
the model is the most recent screen capture. -/
def sendsFresh (tr : List Ev) : Bool := sendsFreshAux none tr

/-- The event trace appended by a run of `twitter_helper` that hits the rate
limit on every attempt: `budget + 1` requests with the same image,
interleaved with `budget` backoff sleeps. -/
def rlTrace (img delay : Nat) : Nat → List Ev
  | 0 => [Ev.send img]
  | b + 1 => Ev.send img :: Ev.sleep delay :: rlTrace img delay b

/-- The action-log entries appended by such a run: an `"error"` entry per
attempt and a `"warning"` entry per retry, stamped by the running clock. -/
def rlEntries (msgs : Nat → String) (delay : Nat) : Nat → Nat → Nat → List LogEntry
  | t0, j, 0 => [⟨toString t0, "error", "error analyzing screenshot: " ++ msgs j⟩]
  | t0, j, b + 1 =>
    ⟨toString t0, "error", "error analyzing screenshot: " ++ msgs j⟩ ::
    ⟨toString (t0 + 1), "warning",
      "hit rate limit, waiting " ++ toString delay ++ " seconds before retry"⟩ ::
    rlEntries msgs delay (t0 + 2) (j + 1) b

/-- The acceptance condition of `type_letters`: the input is a string of
exactly 2-3 characters, all alphabetic. -/
def lettersValid (alpha : Char → Bool) : PyVal → Bool
  | .str s => decide (2 ≤ s.length) && decide (s.length ≤ 3) && pyIsAlphaStr alpha s
  | _ => false

/-- Model oracle that raises a rate-limited error on every attempt. -/
def rlOracle : Nat → Except String (List Part) := fun _ => .error "429"

/-- Model oracle that raises a non-rate-limit error on every attempt. -/
def nrlOracle : Nat → Except String (List Part) := fun _ => .error "boom"

/-- Model oracle answering with a single unknown function call. -/
def unknownOracle : Nat → Except String (List Part) :=
  fun _ => .ok [⟨none, some ⟨"scroll_down", []⟩⟩]

/-- Model oracle answering with a `type_letters` call whose required argument
is absent. -/
def noArgOracle : Nat → Except String (List Part) :=
  fun _ => .ok [⟨none, some ⟨"type_letters", []⟩⟩]

/-- Model oracle answering with free text and no function call. -/
def textOnlyOracle : Nat → Except String (List Part) :=
  fun _ => .ok [⟨some "thinking", none⟩]

/-- Model response whose first part dispatches a valid `type_letters` call
(which re-captures the screen) and whose second part raises a validation
error, failing the whole `twitter_helper` call after the re-capture. -/
def staleParts : List Part :=
  [⟨none, some ⟨"type_letters", [("letters", "ab")]⟩⟩,
   ⟨none, some ⟨"type_letters", [("letters", "a")]⟩⟩]

/-- Model oracle for the staleness counterexample: first attempt returns
`staleParts`, later attempts raise a non-rate-limit error. -/
def staleOracle : Nat → Except String (List Part)
  | 0 => .ok staleParts
  | _ + 1 => .error "boom"

lemma pySliceSuffix_neg_eq_lastN (n : Int) (hn : 1 ≤ n) (l : List α) :
    pySliceSuffix (-n) l = lastN n l := by
  unfold pySliceSuffix lastN
  rw [if_pos (by omega), if_neg (by omega)]
  congr 1
  omega

/-- C9: for every primary-monitor geometry, `capture_screenshot` captures the
region anchored at the monitor's top-left corner with width one third of the
monitor width (integer division) and height `0.625` times the monitor height
truncated to an integer, and returns the grabbed image together with that
region. -/
theorem capture_screenshot_region (grab : Region → Nat) (m : Monitor) :
    capture_screenshot grab m =
      (grab { top := m.top, left := m.left, width := m.width / 3, height := 5 * m.height / 8 },
       { top := m.top, left := m.left, width := m.width / 3, height := 5 * m.height / 8 })
  ∧ (captureRegion m).height = 625 * m.height / 1000
  ∧ (captureRegion m).width = m.width / 3
  ∧ (captureRegion m).top = m.top
  ∧ (captureRegion m).left = m.left := by
  refine ⟨rfl, ?_, rfl, rfl, rfl⟩
  show 5 * m.height / 8 = 625 * m.height / 1000
  have h8 : (1000 : ℕ) = 125 * 8 := by norm_num
  have h5 : 625 * m.height = 125 * (5 * m.height) := by ring
  rw [h5, h8, Nat.mul_div_mul_left _ _ (by norm_num)]

/-- C8: an entry appended to the action log by `save_log` and then reloaded
from the log file reconstructs exactly the same
`{timestamp, action, result}` triple that was written. -/
theorem save_log_roundtrip (ts action result : String) (l : List LogEntry) :
    readLogs (save_log ts action result WriteOutcome.ok (.valid l)).1 =
      .ok (some (l ++ [⟨ts, action, result⟩]))
  ∧ (l ++ [(⟨ts, action, result⟩ : LogEntry)]).getLast? = some ⟨ts, action, result⟩ := by
  exact ⟨rfl, List.getLast?_concat _⟩

/-- C7: the action-log append never raises to its caller: for every
action/result input and every persistence failure (missing file, corrupt
text, non-array content, write error), `save_log` returns normally, and in
every failing case the failure is reported via `logging.error`. -/
theorem save_log_never_raises (ts action result : String) (wr : WriteOutcome)
    (st : LogFileState) :
    save_log_call ts action result wr st = .ok (save_log ts action result wr st)
  ∧ (∀ x, save_log_body ts action result wr st = .error x →
      (save_log ts action result wr st).2 = true) := by
  constructor
  · unfold save_log_call save_log
    cases save_log_body ts action result wr st <;> rfl
  · intro x hx
    unfold save_log
    rw [hx]

theorem save_log_never_raises_witness :
    save_log_call "t0" "a0" "r0" WriteOutcome.ok LogFileState.corrupt =
      .ok (LogFileState.corrupt, true)
  ∧ (save_log "t0" "a0" "r0" WriteOutcome.ok LogFileState.corrupt).2 = true := by
  refine ⟨?_, ?_⟩
  · have h := (save_log_never_raises "t0" "a0" "r0" WriteOutcome.ok LogFileState.corrupt).1
    rw [h]
    rfl
  · exact (save_log_never_raises "t0" "a0" "r0" WriteOutcome.ok LogFileState.corrupt).2
      ("JSONDecodeError", LogFileState.corrupt) rfl

/-- C3 counterexample: at `n = 0` on a one-entry log, `get_recent_logs`
returns the whole log rendered (Python `logs[-0:]` is `logs[0:]`), not the
last `min(0, 1) = 0` entries, so the claim fails as stated for every
integer `n`. -/
theorem get_recent_logs_zero_cex :
    get_recent_logs 0 (.valid [⟨"t", "a", "r"⟩]) = "[t] a: r"
  ∧ "[t] a: r" ≠
      String.intercalate "\n" ((lastN 0 [(⟨"t", "a", "r"⟩ : LogEntry)]).map fmtLog) := by
  exact ⟨rfl, by decide⟩

/-- C3 (amended to positive `n`): for every integer `n ≥ 1` and every state
of the action log, `get_recent_logs n` returns exactly the last
`min(n, total)` entries in chronological (oldest-first) order, each formatted
as `"[timestamp] action: result"`, and returns the empty string when the log
storage is absent, unreadable, or otherwise corrupt. -/
theorem get_recent_logs_last_min (n : Int) (hn : 1 ≤ n) (st : LogFileState) :
    get_recent_logs n st =
      (match st with
       | .valid l => String.intercalate "\n" ((lastN n l).map fmtLog)
       | _ => "") := by
  cases st <;> simp only [get_recent_logs, readLogs]
  rw [pySliceSuffix_neg_eq_lastN n hn]

theorem get_recent_logs_last_min_witness :
    get_recent_logs 2
      (.valid [⟨"t1", "a1", "r1"⟩, ⟨"t2", "a2", "r2"⟩, ⟨"t3", "a3", "r3"⟩]) =
      "[t2] a2: r2\n[t3] a3: r3" := by
  have h := get_recent_logs_last_min 2 (by decide)
    (.valid [⟨"t1", "a1", "r1"⟩, ⟨"t2", "a2", "r2"⟩, ⟨"t3", "a3", "r3"⟩])
  rw [h]
  rfl

/-- C2: `type_letters` rejects with a `ValueError` exactly when its input is
not a string of 2-3 alphabetic characters; every rejection happens before any
keystroke-simulation side effect (the carried state is unchanged); and every
string of exactly 2-3 alphabetic characters is accepted and dispatched as the
typing sequence followed by the confirm gesture and a re-capture. -/
theorem type_letters_validation (alpha : Char → Bool) (v : PyVal) (st : St) :
    ((∃ m st', type_letters alpha v st = .error (m, st')) ↔ lettersValid alpha v = false)
  ∧ (∀ m st', type_letters alpha v st = .error (m, st') → st' = st)
  ∧ (∀ s, v = .str s → lettersValid alpha v = true →
      type_letters alpha v st = .ok (st.capCount,
        { st with capCount := st.capCount + 1,
                  trace := st.trace ++ (pyLower s).map Ev.keystroke
                            ++ [Ev.sleep 3, Ev.optionTap, Ev.capture st.capCount] })) := by
  refine ⟨?_, ?_, ?_⟩
  · cases v with
    | str s =>
      by_cases h1 : 2 ≤ s.length ∧ s.length ≤ 3
      · by_cases h2 : pyIsAlphaStr alpha s
        · simp [type_letters, lettersValid, if_pos h1, h2, h1.1, h1.2, captureSt]
        · simp [type_letters, lettersValid, if_pos h1, h2]
      · simp only [type_letters, lettersValid, if_neg h1]
        simp only [Bool.and_eq_false_iff, decide_eq_false_iff_not]
        constructor
        · intro _
          left
          omega
        · intro _
          exact ⟨_, _, rfl⟩
    | intVal n => simp [type_letters, lettersValid]
    | noneVal => simp [type_letters, lettersValid]
  · intro m st' h
    cases v with
    | str s =>
      simp only [type_letters] at h
      split at h
      · split at h
        · exact absurd h (by simp)
        · rw [Except.error.injEq, Prod.mk.injEq] at h
          exact h.2.symm
      · rw [Except.error.injEq, Prod.mk.injEq] at h
        exact h.2.symm
    | intVal n =>
      simp only [type_letters, Except.error.injEq, Prod.mk.injEq] at h
      exact h.2.symm
    | noneVal =>
      simp only [type_letters, Except.error.injEq, Prod.mk.injEq] at h
      exact h.2.symm
  · intro s hv hvalid
    subst hv
    simp only [lettersValid, Bool.and_eq_true, decide_eq_true_eq] at hvalid
    simp [type_letters, if_pos hvalid.1, hvalid.2, captureSt, List.append_assoc]

theorem type_letters_validation_witness :
    type_letters Char.isAlpha (.str "ab") ⟨.valid [], 0, 0, []⟩ =
      .ok (0, ⟨.valid [], 0, 1,
        [Ev.keystroke 'a', Ev.keystroke 'b', Ev.sleep 3, Ev.optionTap, Ev.capture 0]⟩)
  ∧ (∀ m st', type_letters Char.isAlpha (.str "a") ⟨.valid [], 0, 0, []⟩ = .error (m, st') →
      st' = ⟨.valid [], 0, 0, []⟩) := by
  constructor
  · have h := (type_letters_validation Char.isAlpha (.str "ab") ⟨.valid [], 0, 0, []⟩).2.2
      "ab" rfl (by decide)
    rw [h]
    simp only [Except.ok.injEq, Prod.mk.injEq, St.mk.injEq]
    decide
  · exact (type_letters_validation Char.isAlpha (.str "a") ⟨.valid [], 0, 0, []⟩).2.1

/-- C4: for every model-request error whose textual representation does not
carry the rate-limit marker, `twitter_helper` returns `False` after exactly
one attempt — one request sent, one `"error"` log entry, no backoff sleep,
no retry, and no exception raised (the call returns a value). -/
theorem twitter_helper_non_rate_limit_single_attempt
    (oracle : Nat → Except String (List Part)) (alpha : Char → Bool)
    (e : String) (k : Nat) (ho : oracle k = .error e) (h429 : has429 e = false)
    (img delay budget : Nat) (l : List LogEntry) (t c : Nat) (tr : List Ev) :
    twitter_helper oracle alpha img delay budget k ⟨.valid l, t, c, tr⟩ =
      (false, k + 1,
        ⟨.valid (l ++ [⟨toString t, "error", "error analyzing screenshot: " ++ e⟩]),
          t + 1, c, tr ++ [Ev.send img]⟩) := by
  cases budget <;>
    simp [twitter_helper, attempt, ho, h429, saveLogSt, save_log, save_log_body, readLogs]

theorem twitter_helper_non_rate_limit_single_attempt_witness :
    twitter_helper nrlOracle Char.isAlpha 0 60 3 0 ⟨.valid [], 0, 0, []⟩ =
      (false, 1,
        ⟨.valid [⟨"0", "error", "error analyzing screenshot: boom"⟩], 1, 0,
          [Ev.send 0]⟩) := by
  have h := twitter_helper_non_rate_limit_single_attempt nrlOracle Char.isAlpha
    "boom" 0 rfl (by decide) 0 60 3 [] 0 0 []
  rw [h]
  decide

/-- C6: a function call whose name is neither `type_letters` nor `type_text`
is only warned about: the dispatcher performs no action and writes no
action-log entry for it, and a `twitter_helper` call whose response consists
of such a call completes successfully — no crash, no failure signal, no
retry. -/
theorem unknown_action_warn_ignore
    (oracle : Nat → Except String (List Part)) (alpha : Char → Bool)
    (name : String) (args : List (String × String)) (txt : Option String) (k : Nat)
    (hn1 : name ≠ "type_letters") (hn2 : name ≠ "type_text")
    (ho : oracle k = .ok [⟨txt, some ⟨name, args⟩⟩])
    (img delay budget : Nat) (st : St) :
    (∀ s : St, dispatch alpha ⟨name, args⟩ s =
      .ok { s with trace := s.trace ++ [Ev.warn name] })
  ∧ twitter_helper oracle alpha img delay budget k st =
      (true, k + 1, { st with trace := st.trace ++ [Ev.send img, Ev.warn name] }) := by
  have hd : ∀ s : St, dispatch alpha ⟨name, args⟩ s =
      .ok { s with trace := s.trace ++ [Ev.warn name] } := by
    intro s
    simp [dispatch, hn1, hn2]
  refine ⟨hd, ?_⟩
  simp [twitter_helper, attempt, ho, processParts, hd, List.append_assoc]

theorem unknown_action_warn_ignore_witness :
    twitter_helper unknownOracle Char.isAlpha 0 60 3 0 ⟨.valid [], 0, 0, []⟩ =
      (true, 1, ⟨.valid [], 0, 0, [Ev.send 0, Ev.warn "scroll_down"]⟩) := by
  have h := (unknown_action_warn_ignore unknownOracle Char.isAlpha "scroll_down" []
    none 0 (by decide) (by decide) rfl 0 60 3 ⟨.valid [], 0, 0, []⟩).2
  rw [h]
  decide

/-- C10 (implicit): a `type_letters`/`type_text` call whose required argument
is absent or the empty string is silently skipped — the dispatcher executes
nothing, writes no action-log entry, and emits no warning — and a
`twitter_helper` call whose response consists of such a call still returns
success. -/
theorem missing_arg_silent_skip
    (oracle : Nat → Except String (List Part)) (alpha : Char → Bool)
    (name : String) (args : List (String × String)) (txt : Option String) (k : Nat)
    (hcase :
      (name = "type_letters" ∧
        (lookupArg args "letters" = none ∨ lookupArg args "letters" = some ""))
      ∨ (name = "type_text" ∧
        (lookupArg args "text" = none ∨ lookupArg args "text" = some "")))
    (ho : oracle k = .ok [⟨txt, some ⟨name, args⟩⟩])
    (img delay budget : Nat) (st : St) :
    (∀ s : St, dispatch alpha ⟨name, args⟩ s = .ok s)
  ∧ twitter_helper oracle alpha img delay budget k st =
      (true, k + 1, { st with trace := st.trace ++ [Ev.send img] }) := by
  have hd : ∀ s : St, dispatch alpha ⟨name, args⟩ s = .ok s := by
    intro s
    rcases hcase with ⟨hn, harg⟩ | ⟨hn, harg⟩ <;> subst hn <;>
      rcases harg with h | h <;> simp [dispatch, h]
  refine ⟨hd, ?_⟩
  simp [twitter_helper, attempt, ho, processParts, hd]

theorem missing_arg_silent_skip_witness :
    twitter_helper noArgOracle Char.isAlpha 0 60 3 0 ⟨.valid [], 0, 0, []⟩ =
      (true, 1, ⟨.valid [], 0, 0, [Ev.send 0]⟩) := by
  have h := (missing_arg_silent_skip noArgOracle Char.isAlpha "type_letters" []
    none 0 (Or.inl ⟨rfl, Or.inl rfl⟩) rfl 0 60 3 ⟨.valid [], 0, 0, []⟩).2
  rw [h]
  decide

/-- C1: for every observation image and every sequence of model-request
errors whose textual representations carry the rate-limit marker `"429"`,
`twitter_helper` appends an `"error"` entry to the action log for each
failure, sleeps the configured backoff interval after each (while budget
remains), and retries with the same image and a decremented budget: with
budget `b` it sends exactly `b + 1` requests — all carrying the same image —
interleaved with exactly `b` backoff sleeps (3 retries for the default
budget of 3), and on exhaustion it returns `False` rather than retrying
forever. -/
theorem twitter_helper_rate_limit_retries
    (oracle : Nat → Except String (List Part)) (alpha : Char → Bool)
    (msgs : Nat → String)
    (ho : ∀ j, oracle j = .error (msgs j))
    (h429 : ∀ j, has429 (msgs j) = true)
    (img delay : Nat) :
    ∀ (budget k : Nat) (l : List LogEntry) (t c : Nat) (tr : List Ev),
      twitter_helper oracle alpha img delay budget k ⟨.valid l, t, c, tr⟩ =
        (false, k + budget + 1,
          ⟨.valid (l ++ rlEntries msgs delay t k budget), t + (2 * budget + 1), c,
            tr ++ rlTrace img delay budget⟩) := by
  intro budget
  induction budget with
  | zero =>
    intro k l t c tr
    rw [twitter_helper]
    simp only [attempt, ho k, h429 k, if_true]
    simp [saveLogSt, save_log, save_log_body, readLogs, rlEntries, rlTrace]
  | succ b ih =>
    intro k l t c tr
    rw [twitter_helper]
    simp only [attempt, ho k, h429 k, if_true]
    simp only [saveLogSt, save_log, save_log_body, readLogs]
    rw [ih]
    have ht : t + 1 + 1 = t + 2 := by omega
    have hk : k + 1 + b + 1 = k + (b + 1) + 1 := by omega
    rw [ht, hk]
    have htt : t + 2 + (2 * b + 1) = t + (2 * (b + 1) + 1) := by omega
    rw [htt]
    simp [rlEntries, rlTrace, List.append_assoc]

theorem twitter_helper_rate_limit_retries_witness :
    twitter_helper rlOracle Char.isAlpha 0 60 3 0 ⟨.valid [], 0, 0, []⟩ =
      (false, 4,
        ⟨.valid
          [⟨"0", "error", "error analyzing screenshot: 429"⟩,
           ⟨"1", "warning", "hit rate limit, waiting 60 seconds before retry"⟩,
           ⟨"2", "error", "error analyzing screenshot: 429"⟩,
           ⟨"3", "warning", "hit rate limit, waiting 60 seconds before retry"⟩,
           ⟨"4", "error", "error analyzing screenshot: 429"⟩,
           ⟨"5", "warning", "hit rate limit, waiting 60 seconds before retry"⟩,
           ⟨"6", "error", "error analyzing screenshot: 429"⟩],
          7, 0,
          [Ev.send 0, Ev.sleep 60, Ev.send 0, Ev.sleep 60, Ev.send 0, Ev.sleep 60,
           Ev.send 0]⟩) := by
  have h := twitter_helper_rate_limit_retries rlOracle Char.isAlpha (fun _ => "429")
    (fun _ => rfl) (fun _ => rfl) 0 60 3 0 [] 0 0 []
  rw [h]
  decide

lemma lastCap_append_capture (tr : List Ev) (i : Nat) :
    lastCap (tr ++ [Ev.capture i]) = some i := by
  unfold lastCap
  rw [List.foldl_append]
  rfl

/-- C5 counterexample: the observation handed to the model is not always the
most recent screen capture.  With `staleOracle`, the first iteration
dispatches a valid `type_letters` call (whose execution re-captures the
screen) and then fails on the response's second, invalid call; the loop then
retries the *same* screenshot, which is by now older than the capture
performed inside `type_letters` — so the second request carries a stale
image. -/
theorem loop_stale_observation_cex :
    sendsFresh (loop_run staleOracle Char.isAlpha 2 initLS).st.trace = false := by decide

/-- C5 (amended): in every iteration that follows a successful Model Client
call, the observation handed to the model is the most recent screen capture;
after a failed call the loop retries the very same observation, which can be
stale when an action dispatched during the failed call performed its own
re-capture. -/
theorem loop_observation_freshness
    (oracle : Nat → Except String (List Part)) (alpha : Char → Bool) (ls : LoopState) :
    ((twitter_helper oracle alpha ls.shot 60 3 ls.k ls.st).1 = true →
      lastCap (loop_iter oracle alpha ls).st.trace = some (loop_iter oracle alpha ls).shot)
  ∧ ((twitter_helper oracle alpha ls.shot 60 3 ls.k ls.st).1 = false →
      (loop_iter oracle alpha ls).shot = ls.shot) := by
  rcases hr : twitter_helper oracle alpha ls.shot 60 3 ls.k ls.st with ⟨b, k', st'⟩
  cases b
  · exact ⟨fun hb => by simp at hb, fun _ => by simp [loop_iter, hr]⟩
  · refine ⟨fun _ => ?_, fun hb => by simp at hb⟩
    simp [loop_iter, hr, captureSt, lastCap_append_capture]

theorem loop_observation_freshness_witness :
    lastCap (loop_iter textOnlyOracle Char.isAlpha initLS).st.trace =
      some (loop_iter textOnlyOracle Char.isAlpha initLS).shot := by
  exact (loop_observation_freshness textOnlyOracle Char.isAlpha initLS).1 (by decide)

end AgiHouse
